import Mathlib

/-!
Shallow embedding of the "Cahier de Tests" application (src/src/App.tsx):
the document model (`AppData`), the DocumentStore operations (`addStep`,
`removeStep`, `updateStep`), the persistence codec (`AppData.toJson` for the
JSON export in `downloadJSON`, `handleFileUpload` for restore), the
EditorAdapter's inbound synchronization effect (`inboundOverwrite`), the
SQL-snippet derivation (`jiraDigits`, `sqlQuery`) and the rendering pipeline
(`printContentMarkup` with its two call sites `previewRender` and
`printRender`), together with theorems settling the specification claims.
-/

namespace Cahier

/-- The `type` field of `AppData`: the TypeScript union "TMD" or "TMA". -/
inductive RecordType where
  | TMD
  | TMA
deriving DecidableEq, Repr

/-- The `environment` field of `AppData`: "FRECMCOR" or "FPOST". -/
inductive TestEnv where
  | FRECMCOR
  | FPOST
deriving DecidableEq, Repr

/-- The `conclusion` field of `AppData`: "OK" or "KO". -/
inductive Conclusion where
  | OK
  | KO
deriving DecidableEq, Repr

/-- The string literal each `RecordType` variant stands for in the source. -/
def RecordType.toStr : RecordType → String
  | .TMD => "TMD"
  | .TMA => "TMA"

/-- The string literal each `TestEnv` variant stands for in the source. -/
def TestEnv.toStr : TestEnv → String
  | .FRECMCOR => "FRECMCOR"
  | .FPOST => "FPOST"

/-- The string literal each `Conclusion` variant stands for in the source. -/
def Conclusion.toStr : Conclusion → String
  | .OK => "OK"
  | .KO => "KO"

/-- `interface TestStep` from App.tsx: id, title and rich-text content. -/
structure TestStep where
  id : String
  title : String
  content : String
deriving DecidableEq, Repr

/-- `interface AppData` from App.tsx: the whole document value. -/
structure AppData where
  jiraNumber : String
  jiraName : String
  type : RecordType
  date : String
  environment : TestEnv
  conclusion : Conclusion
  localImage : Option String
  steps : List TestStep
deriving DecidableEq, Repr

/-- `addStep` from App.tsx: appends a step whose id is the value returned by
`crypto.randomUUID()` (passed here as the argument `newId`), whose title is
the template string interpolating `prev.steps.length + 1`, and whose content
is empty. -/
def addStep (d : AppData) (newId : String) : AppData :=
  { d with
    steps := d.steps ++
      [{ id := newId, title := "Étape " ++ toString (d.steps.length + 1), content := "" }] }

/-- `removeStep` from App.tsx: `steps.filter(step => step.id !== id)`. -/
def removeStep (d : AppData) (id : String) : AppData :=
  { d with steps := d.steps.filter (fun step => !(step.id == id)) }

/-- `Partial<TestStep>`: the fields a call to `updateStep` may carry. -/
structure StepPatch where
  id : Option String := none
  title : Option String := none
  content : Option String := none
deriving DecidableEq, Repr

/-- The JavaScript spread `{ ...step, ...updates }`: fields present in the
patch override the step's fields. -/
def mergeStep (step : TestStep) (u : StepPatch) : TestStep :=
  { id := u.id.getD step.id
    title := u.title.getD step.title
    content := u.content.getD step.content }

/-- `updateStep` from App.tsx:
`steps.map(step => step.id === id ? { ...step, ...updates } : step)`. -/
def updateStep (d : AppData) (id : String) (updates : StepPatch) : AppData :=
  { d with
    steps := d.steps.map (fun step => if step.id == id then mergeStep step updates else step) }

/-! ## PersistenceCodec

The export is `JSON.stringify(data, null, 2)` (in `downloadJSON`); the
restore is `JSON.parse` followed by the check `json && typeof json ===
'object'` and, when it passes, a wholesale `setData(json)` (in
`handleFileUpload`).  The string layer (`JSON.stringify`/`JSON.parse`) is the
platform JSON codec, an external collaborator whose round-trip on structural
values is its contract; the embedding therefore works at the level of parsed
structural values (`Json`). -/

/-- Structural JSON values, the interchange format. -/
inductive Json where
  | null : Json
  | bool : Bool → Json
  | num : Int → Json
  | str : String → Json
  | arr : List Json → Json
  | obj : List (String × Json) → Json

/-- The JSON value a `TestStep` serializes to under `JSON.stringify`. -/
def TestStep.toJson (s : TestStep) : Json :=
  Json.obj [("id", Json.str s.id), ("title", Json.str s.title),
            ("content", Json.str s.content)]

/-- The JSON value the document serializes to: the payload of
`downloadJSON`'s `JSON.stringify(data, null, 2)`. -/
def AppData.toJson (d : AppData) : Json :=
  Json.obj
    [("jiraNumber", Json.str d.jiraNumber),
     ("jiraName", Json.str d.jiraName),
     ("type", Json.str d.type.toStr),
     ("date", Json.str d.date),
     ("environment", Json.str d.environment.toStr),
     ("conclusion", Json.str d.conclusion.toStr),
     ("localImage", match d.localImage with
        | none => Json.null
        | some s => Json.str s),
     ("steps", Json.arr (d.steps.map TestStep.toJson))]

/-- The JavaScript test `json && typeof json === 'object'` on a parsed JSON
value: `typeof` is "object" for objects, arrays and `null`, and `null` is
falsy, so the test passes exactly on objects and arrays. -/
def isTruthyObject : Json → Bool
  | Json.obj _ => true
  | Json.arr _ => true
  | _ => false

/-- Outcome of the restore path: the success alert, the silent fall-through
when the parsed value is not a truthy object, or the parse-error alert. -/
inductive RestoreOutcome where
  | restored
  | ignored
  | parseFailed
deriving DecidableEq, Repr

/-- `handleFileUpload` from App.tsx after the platform `JSON.parse` step:
`parsed = none` models a thrown parse error (caught, alert, prior state
kept); `parsed = some j` models a successful parse, after which
`if (json && typeof json === 'object') setData(json)` replaces the state
wholesale, and otherwise nothing happens.  The state is the raw parsed value,
as it is in the untyped source. -/
def handleFileUpload (parsed : Option Json) (prior : Json) : Json × RestoreOutcome :=
  match parsed with
  | none => (prior, RestoreOutcome.parseFailed)
  | some j =>
      if isTruthyObject j then (j, RestoreOutcome.restored)
      else (prior, RestoreOutcome.ignored)

/-! ## EditorAdapter inbound path

The inbound (store → surface) effect of `RichTextEditor` is the
`useEffect([value])` body:
`if (value !== quill.root.innerHTML) quill.root.innerHTML = value`. -/

/-- The inbound overwrite effect: given the incoming step `content` and the
surface's current buffer, returns the buffer afterwards and whether a write
was performed.  The comparison is strict string inequality, as in the source. -/
def inboundOverwrite (value buffer : String) : String × Bool :=
  if value = buffer then (buffer, false) else (value, true)

/-! ## SQL-snippet derivation and rendering pipeline -/

/-- `data.jiraNumber.replace(/\D/g, '')` character by character: keep the
decimal digits, in order, discard everything else. -/
def replaceNonDigits : List Char → List Char
  | [] => []
  | c :: cs => if c.isDigit then c :: replaceNonDigits cs else replaceNonDigits cs

/-- `jiraDigits` from App.tsx: the digits of the JIRA number. -/
def jiraDigits (jiraNumber : String) : String :=
  String.mk (replaceNonDigits jiraNumber.data)

/-- The JavaScript fallback `jiraDigits || 'XXXX'`: the empty string is
falsy. -/
def digitsOrXXXX (digits : String) : String :=
  if digits = "" then "XXXX" else digits

/-- `sqlQuery` from App.tsx:
the template string around `jiraDigits || 'XXXX'`. -/
def sqlQuery (jiraNumber : String) : String :=
  "select * from ps_s1_scripts_tbl where s1_script_name like \x27%"
    ++ digitsOrXXXX (jiraDigits jiraNumber) ++ "J%\x27;"

/-- The `sql-block` of `PrintContent`, built from the `jiraDigits` prop the
component receives; same template as `sqlQuery`. -/
def sqlBlock (digits : String) : String :=
  "<div class=\"sql-block\">select * from ps_s1_scripts_tbl where s1_script_name like \x27%"
    ++ digitsOrXXXX digits ++ "J%\x27;</div>"

/-- Models the platform formatter
`new Date(data.date).toLocaleDateString('fr-FR')` on an ISO `YYYY-MM-DD`
input: day/month/year.  An external collaborator; only its determinism
matters to the claims. -/
def formatDateFr (iso : String) : String :=
  match iso.splitOn "-" with
  | [y, m, d] => d ++ "/" ++ m ++ "/" ++ y
  | _ => iso

/-- The cover page of `PrintContent` (the `pdf-page` "Page de Garde"):
header band with `jiraNumber || 'JIRA-XXX'` and `jiraName || 'NOM DE LA
JIRA'`, sub-header `[type] - [date fr-FR]`, logo and caption. -/
def coverPageMarkup (d : AppData) : String :=
  "<div class=\"pdf-page\"><div class=\"pdf-header-band\"><div class=\"pdf-header-left\">"
    ++ (if d.jiraNumber = "" then "JIRA-XXX" else d.jiraNumber)
    ++ "</div><div class=\"pdf-header-right\">"
    ++ (if d.jiraName = "" then "NOM DE LA JIRA" else d.jiraName)
    ++ "</div></div><div class=\"pdf-sub-header\">[" ++ d.type.toStr
    ++ "] - [" ++ formatDateFr d.date
    ++ "]</div><div><img src=\"/icon.png\" alt=\"Logo Cahier de Tests\" />"
    ++ "<p>Cahier de Recette</p></div></div>"

/-- One step block of `PrintContent`: atomic (`pageBreakInside: avoid`),
titled `Étape (idx+1) : title`, raw `content` injected verbatim via
`dangerouslySetInnerHTML`. -/
def stepBlockMarkup (idx : Nat) (s : TestStep) : String :=
  "<div class=\"mb-8\" style=\"page-break-inside: avoid\"><div class=\"step-title\">Étape "
    ++ toString (idx + 1) ++ " : " ++ s.title
    ++ "</div><div class=\"ql-editor\">" ++ s.content ++ "</div></div>"

/-- All step blocks, in document order (`data.steps.map((step, idx) => ...)`). -/
def stepsMarkup (steps : List TestStep) : String :=
  String.join (steps.enum.map (fun p => stepBlockMarkup p.1 p.2))

/-- The conclusion banner: class
`data.conclusion === 'OK' ? 'conclusion-ok' : 'conclusion-ko'`, text
`BON POUR PROD {conclusion}`; atomic block. -/
def conclusionMarkup (c : Conclusion) : String :=
  "<div class=\"mt-12\" style=\"page-break-inside: avoid\"><h2>Conclusion du Test</h2><div class=\""
    ++ (match c with
        | Conclusion.OK => "conclusion-ok"
        | Conclusion.KO => "conclusion-ko")
    ++ "\">BON POUR PROD " ++ c.toStr ++ "</div></div>"

/-- The optional screenshot block: `{data.localImage && (...)}`. -/
def imageMarkup : Option String → String
  | none => ""
  | some src =>
      "<div class=\"mb-8\"><p>Exécution SQL :</p><img src=\"" ++ src
        ++ "\" alt=\"Local\" class=\"pdf-image-main\" /></div>"

/-- The content section of `PrintContent` (the table body `pdf-content`):
technical details heading, SQL block, optional image, environment, the step
blocks in order, and the conclusion banner. -/
def contentSectionMarkup (d : AppData) (digits : String) : String :=
  "<div class=\"pdf-content\"><h2>Détails Techniques</h2><p>Requête SQL de vérification :</p>"
    ++ sqlBlock digits
    ++ imageMarkup d.localImage
    ++ "<div class=\"mb-8\"><h3>Environnement de test</h3><p>" ++ d.environment.toStr
    ++ "</p></div><h2>Déroulement des Tests</h2>"
    ++ stepsMarkup d.steps
    ++ conclusionMarkup d.conclusion

/-- `PrintContent({ data, jiraDigits })`: the cover page followed by the
content section, a pure function of its two props. -/
def printContentMarkup (d : AppData) (digits : String) : String :=
  coverPageMarkup d ++ contentSectionMarkup d digits

/-- The fixed footer both call sites render next to `PrintContent`. -/
def footerMarkup (d : AppData) : String :=
  "<div class=\"pdf-footer-fixed\"><div>" ++ d.jiraNumber ++ " / " ++ d.jiraName
    ++ "</div><div>Cahier de recette</div></div>"

/-- The preview-modal call site: its container framing, and the content it
renders — `<PrintContent data={data} jiraDigits={jiraDigits} />` plus the
footer, inside `print-container shadow-2xl relative`. -/
def previewRender (d : AppData) : String × String :=
  ("print-container shadow-2xl relative",
   printContentMarkup d (jiraDigits d.jiraNumber) ++ footerMarkup d)

/-- The hidden print-template call site: its container framing
(`hidden print:block`, `print-container relative`), and the content it
renders — the same `<PrintContent data={data} jiraDigits={jiraDigits} />`
plus the footer. -/
def printRender (d : AppData) : String × String :=
  ("hidden print:block print-container relative",
   printContentMarkup d (jiraDigits d.jiraNumber) ++ footerMarkup d)

/-! ## Render-trigger gating (`generatePDF`, `handlePrint`) -/

/-- The alert text both gates show. -/
def fillAlert : String :=
  "Veuillez remplir au moins le numéro et le nom de la JIRA."

/-- Outcome of `handlePrint`: refusal alert, or `window.print()` invoked. -/
inductive PrintOutcome where
  | refused : String → PrintOutcome
  | printed
deriving DecidableEq, Repr

/-- Outcome of `generatePDF`'s synchronous part: refusal alert, or the
backend conversion scheduled with its output filename. -/
inductive PdfOutcome where
  | refused : String → PdfOutcome
  | launched : String → PdfOutcome
deriving DecidableEq, Repr

/-- `handlePrint` from App.tsx: `if (!data.jiraNumber || !data.jiraName)`
(empty strings are falsy) alerts and returns; otherwise calls
`window.print()`.  The document is returned unchanged — the handler never
touches it. -/
def handlePrint (d : AppData) : PrintOutcome × AppData :=
  if d.jiraNumber = "" ∨ d.jiraName = "" then (PrintOutcome.refused fillAlert, d)
  else (PrintOutcome.printed, d)

/-- `generatePDF` from App.tsx (synchronous part): the same guard; on
refusal it returns before `setIsGenerating(true)`, so the busy flag and the
document are unchanged; otherwise it sets the flag and schedules the
`html2pdf` backend call with filename `Cahier_Tests_{jiraNumber}.pdf`. -/
def generatePDF (d : AppData) (isGenerating : Bool) : PdfOutcome × AppData × Bool :=
  if d.jiraNumber = "" ∨ d.jiraName = "" then
    (PdfOutcome.refused fillAlert, d, isGenerating)
  else
    (PdfOutcome.launched ("Cahier_Tests_" ++ d.jiraNumber ++ ".pdf"), d, true)

/-! ## Sample documents used by concrete witnesses -/

/-- A concrete document with one step, used to instantiate witnesses. -/
def sampleDoc : AppData :=
  { jiraNumber := "ERP-1234"
    jiraName := "Migration"
    type := RecordType.TMD
    date := "2026-01-15"
    environment := TestEnv.FRECMCOR
    conclusion := Conclusion.OK
    localImage := none
    steps := [{ id := "s1", title := "Étape 1", content := "" }] }

/-- `sampleDoc` with the JIRA number cleared. -/
def emptyNumDoc : AppData :=
  { sampleDoc with jiraNumber := "" }

/-- A parsed JSON object with no `steps` field at all. -/
def noStepsJson : Json :=
  Json.obj [("jiraNumber", Json.str "ERP-1")]

/-! ## Helper lemmas -/

theorem recordTypeToStrInj (a b : RecordType) (h : a.toStr = b.toStr) : a = b := by
  cases a <;> cases b <;> first | rfl | exact absurd h (by decide)

theorem testEnvToStrInj (a b : TestEnv) (h : a.toStr = b.toStr) : a = b := by
  cases a <;> cases b <;> first | rfl | exact absurd h (by decide)

theorem conclusionToStrInj (a b : Conclusion) (h : a.toStr = b.toStr) : a = b := by
  cases a <;> cases b <;> first | rfl | exact absurd h (by decide)

theorem stepToJsonInj : Function.Injective TestStep.toJson := by
  intro a b h
  cases a
  cases b
  simp only [TestStep.toJson, Json.obj.injEq, List.cons.injEq, Prod.mk.injEq,
    Json.str.injEq, true_and, and_true] at h
  simp_all

theorem appDataToJsonInj (d d' : AppData) (h : d.toJson = d'.toJson) : d = d' := by
  cases d with
  | mk jn jna ty da env co li st =>
  cases d' with
  | mk jn' jna' ty' da' env' co' li' st' =>
  simp only [AppData.toJson, Json.obj.injEq, List.cons.injEq, Prod.mk.injEq,
    Json.str.injEq, Json.arr.injEq, true_and, and_true] at h
  obtain ⟨h1, h2, h3, h4, h5, h6, h7, h8⟩ := h
  have hli : li = li' := by
    cases li <;> cases li' <;> simp_all
  simp only [AppData.mk.injEq]
  exact ⟨h1, h2, recordTypeToStrInj _ _ h3, h4, testEnvToStrInj _ _ h5,
    conclusionToStrInj _ _ h6, hli, List.map_injective_iff.mpr stepToJsonInj h8⟩

theorem replaceNonDigits_eq_filter (l : List Char) :
    replaceNonDigits l = l.filter Char.isDigit := by
  induction l with
  | nil => rfl
  | cons c cs ih => by_cases h : c.isDigit <;> simp [replaceNonDigits, h, ih]

theorem filter_remove_length (l : List TestStep) (id : String)
    (hn : (l.map TestStep.id).Nodup) (hm : id ∈ l.map TestStep.id) :
    (l.filter (fun s => !(s.id == id))).length + 1 = l.length := by
  induction l with
  | nil => simp at hm
  | cons s rest ih =>
    simp only [List.map_cons, List.nodup_cons, List.mem_map] at hn
    simp only [List.map_cons, List.mem_cons] at hm
    by_cases h : s.id = id
    · have hrest : rest.filter (fun t => !(t.id == id)) = rest := by
        apply List.filter_eq_self.mpr
        intro t ht
        simp only [Bool.not_eq_eq_eq_not, Bool.not_true, beq_eq_false_iff_ne, ne_eq]
        intro htid
        exact hn.1 ⟨t, ht, by rw [htid, h]⟩
      simp [List.filter_cons, h, hrest]
    · have hm' : id ∈ rest.map TestStep.id := by
        rcases hm with hm | hm
        · exact absurd hm.symm h
        · exact hm
      have := ih hn.2 hm'
      simp only [List.filter_cons]
      have hb : (!(s.id == id)) = true := by
        simp [h]
      rw [hb]
      simp only [if_true, List.length_cons]
      omega

/-! ## Claim theorems -/

/-- C1: for every fixed document, the preview call site and the print call
site invoke the rendering pipeline (`PrintContent` plus the footer) on the
same document and derived digits, so the content they render is
byte-identical; only the container framing (the first component) differs. -/
theorem C1_rendering_determinism (d : AppData) :
    (previewRender d).2 = (printRender d).2 := rfl

/-- C2: restoring the JSON export of any document accepts it and installs
exactly the exported value, and the export is injective, so the restored
in-memory document is the original: decode (encode d) = d. -/
theorem C2_roundtrip (d : AppData) (prior : Json) :
    handleFileUpload (some (AppData.toJson d)) prior
        = (AppData.toJson d, RestoreOutcome.restored)
    ∧ ∀ d' : AppData, AppData.toJson d = AppData.toJson d' → d = d' := by
  exact ⟨rfl, fun d' h => appDataToJsonInj d d' h⟩

/-- C2 witness: the round-trip theorem applied to a concrete document. -/
theorem C2_roundtrip_witness :
    handleFileUpload (some (AppData.toJson sampleDoc)) Json.null
        = (AppData.toJson sampleDoc, RestoreOutcome.restored)
    ∧ sampleDoc = sampleDoc :=
  ⟨(C2_roundtrip sampleDoc Json.null).1,
   (C2_roundtrip sampleDoc Json.null).2 sampleDoc rfl⟩

/-- C3 counterexample: on an id absent from the document, `updateStep`
completes normally and returns the document unchanged — it silently
succeeds, it does not fail with a `StepNotFound` error (the operation has no
error path at all in the source). -/
theorem C3_counterexample :
    updateStep sampleDoc "absent-id" { title := some "T" } = sampleDoc := by
  decide

/-- C3 amended: `updateStep` on an id matching no step is a silent no-op —
it returns the document unchanged and raises no error. -/
theorem C3_updateStep_absent_noop (d : AppData) (id : String) (u : StepPatch)
    (h : ∀ s ∈ d.steps, s.id ≠ id) :
    updateStep d id u = d := by
  cases d with
  | mk jn jna ty da env co li st =>
  simp only [updateStep, AppData.mk.injEq, true_and]
  induction st with
  | nil => rfl
  | cons s rest ih =>
    have hs : (s.id == id) = false := by
      simp only [beq_eq_false_iff_ne, ne_eq]
      exact h s (List.mem_cons_self s rest)
    simp only [List.map_cons, hs, Bool.false_eq_true, if_false, List.cons_inj_right]
    exact ih (fun t ht => h t (List.mem_cons_of_mem s ht))

/-- C3 witness: the amended no-op theorem at a concrete document and id. -/
theorem C3_updateStep_absent_noop_witness :
    (∀ s ∈ sampleDoc.steps, s.id ≠ "zz")
    ∧ updateStep sampleDoc "zz" { content := some "x" } = sampleDoc :=
  ⟨by decide, C3_updateStep_absent_noop sampleDoc "zz" { content := some "x" } (by decide)⟩

/-- C4 counterexample: a parsed object with no `steps` field is accepted by
the restore path, which replaces the prior document with it wholesale —
decode does not fail with `MalformedDocument` on a value missing `steps`. -/
theorem C4_counterexample :
    handleFileUpload (some noStepsJson) (AppData.toJson sampleDoc)
      = (noStepsJson, RestoreOutcome.restored) := rfl

/-- C4 amended: decode fails only at the JSON-parse layer (unparseable
input leaves the prior document untouched); any parsed truthy object —
including one missing `steps` — is installed wholesale with no structural
validation; a parsed non-object value is silently ignored, leaving the prior
document untouched. -/
theorem C4_decode_no_validation (prior j : Json) :
    handleFileUpload none prior = (prior, RestoreOutcome.parseFailed)
    ∧ (isTruthyObject j = true →
        handleFileUpload (some j) prior = (j, RestoreOutcome.restored))
    ∧ (isTruthyObject j = false →
        handleFileUpload (some j) prior = (prior, RestoreOutcome.ignored)) := by
  refine ⟨rfl, ?_, ?_⟩ <;> intro h <;> simp [handleFileUpload, h]

/-- C4 witness: the amended decode behavior at the concrete steps-less
object. -/
theorem C4_decode_no_validation_witness :
    isTruthyObject noStepsJson = true
    ∧ handleFileUpload (some noStepsJson) Json.null
        = (noStepsJson, RestoreOutcome.restored) :=
  ⟨rfl, (C4_decode_no_validation Json.null noStepsJson).2.1 rfl⟩

/-- C5 counterexample: with incoming step content `""` and the surface
buffer holding only the Quill placeholder `<p><br></p>`, the inbound
overwrite path does perform a write (it clobbers the buffer with `""`),
because the comparison is strict string equality — the placeholder and the
empty string are not treated as equivalent. -/
theorem C5_counterexample :
    inboundOverwrite "" "<p><br></p>" = ("", true) := by decide

/-- C5 amended: the inbound overwrite path compares buffer and incoming
content by strict string equality and writes exactly when they differ; in
particular, for content `""` against the placeholder buffer `<p><br></p>` it
overwrites the buffer, so the surface default and the empty string are not
treated as equivalent. -/
theorem C5_strict_comparison (value buffer : String) (h : value ≠ buffer) :
    inboundOverwrite value buffer = (value, true) := by
  simp [inboundOverwrite, h]

/-- C5 witness: the strict-comparison theorem at the placeholder buffer. -/
theorem C5_strict_comparison_witness :
    ("" : String) ≠ "<p><br></p>"
    ∧ inboundOverwrite "" "<p><br></p>" = ("", true) :=
  ⟨by decide, C5_strict_comparison "" "<p><br></p>" (by decide)⟩

/-- C6: `addStep` appends exactly one step at the end, titled from its
1-based position (`length + 1`), leaving the existing steps untouched; done
twice with fresh ids, the two new steps are appended in order after the
existing ones and their ids are distinct.  Freshness of the generated ids is
the `crypto.randomUUID()` collaborator's guarantee, taken as hypotheses. -/
theorem C6_addStep_appends (d : AppData) (id1 id2 : String)
    (h1 : id1 ∉ d.steps.map TestStep.id)
    (h2 : id2 ∉ (addStep d id1).steps.map TestStep.id) :
    addStep d id1
      = { d with steps := d.steps
            ++ [⟨id1, "Étape " ++ toString (d.steps.length + 1), ""⟩] }
    ∧ addStep (addStep d id1) id2
      = { d with steps := d.steps
            ++ [⟨id1, "Étape " ++ toString (d.steps.length + 1), ""⟩,
                ⟨id2, "Étape " ++ toString (d.steps.length + 2), ""⟩] }
    ∧ id1 ≠ id2
    ∧ id1 ∉ d.steps.map TestStep.id
    ∧ id2 ∉ d.steps.map TestStep.id := by
  simp only [addStep, List.map_append, List.map_cons, List.map_nil,
    List.mem_append, List.mem_singleton, not_or] at h2
  refine ⟨rfl, ?_, ?_, h1, h2.1⟩
  · simp only [addStep, List.length_append, List.length_cons, List.length_nil,
      List.append_assoc, List.cons_append, List.nil_append]
  · exact fun h => h2.2 h.symm

/-- C6 witness: two fresh ids added to the concrete sample document. -/
theorem C6_addStep_appends_witness :
    ("b" ∉ sampleDoc.steps.map TestStep.id
      ∧ "c" ∉ (addStep sampleDoc "b").steps.map TestStep.id)
    ∧ (addStep sampleDoc "b"
        = { sampleDoc with steps := sampleDoc.steps
              ++ [⟨"b", "Étape " ++ toString (sampleDoc.steps.length + 1), ""⟩] }
      ∧ addStep (addStep sampleDoc "b") "c"
        = { sampleDoc with steps := sampleDoc.steps
              ++ [⟨"b", "Étape " ++ toString (sampleDoc.steps.length + 1), ""⟩,
                  ⟨"c", "Étape " ++ toString (sampleDoc.steps.length + 2), ""⟩] }
      ∧ "b" ≠ "c"
      ∧ "b" ∉ sampleDoc.steps.map TestStep.id
      ∧ "c" ∉ sampleDoc.steps.map TestStep.id) :=
  ⟨⟨by decide, by decide⟩, C6_addStep_appends sampleDoc "b" "c" (by decide) (by decide)⟩

/-- C7: `removeStep` on an absent id is a no-op (result equals input); every
step it keeps is a step of the input, verbatim (titles untouched, no
renumbering); and when the ids are unique and the id is present, exactly one
step is removed. -/
theorem C7_removeStep (d : AppData) (id : String) :
    (id ∉ d.steps.map TestStep.id → removeStep d id = d)
    ∧ (∀ s ∈ (removeStep d id).steps, s ∈ d.steps ∧ s.id ≠ id)
    ∧ ((d.steps.map TestStep.id).Nodup → id ∈ d.steps.map TestStep.id →
        (removeStep d id).steps.length + 1 = d.steps.length) := by
  refine ⟨?_, ?_, ?_⟩
  · intro h
    have hf : d.steps.filter (fun s => !(s.id == id)) = d.steps := by
      apply List.filter_eq_self.mpr
      intro s hs
      simp only [Bool.not_eq_eq_eq_not, Bool.not_true, beq_eq_false_iff_ne, ne_eq]
      intro hc
      exact h (List.mem_map.mpr ⟨s, hs, hc⟩)
    cases d with
    | mk jn jna ty da env co li st =>
    simp only [removeStep] at hf ⊢
    simp [hf]
  · intro s hs
    simp only [removeStep, List.mem_filter, Bool.not_eq_eq_eq_not, Bool.not_true,
      beq_eq_false_iff_ne, ne_eq] at hs
    exact ⟨hs.1, hs.2⟩
  · intro hn hm
    exact filter_remove_length d.steps id hn hm

/-- C7 witness: the no-op and exactly-one-removed facts at concrete inputs. -/
theorem C7_removeStep_witness :
    removeStep sampleDoc "zz" = sampleDoc
    ∧ (removeStep sampleDoc "s1").steps.length + 1 = sampleDoc.steps.length :=
  ⟨(C7_removeStep sampleDoc "zz").1 (by decide),
   (C7_removeStep sampleDoc "s1").2.2 (by decide) (by decide)⟩

/-- C8: the digit extraction keeps exactly the decimal digits of the JIRA
number, in order; the rendered SQL snippet for jiraNumber "ERP-1234" embeds
"1234"; and for any JIRA number containing no digit it embeds the literal
placeholder "XXXX". -/
theorem C8_sql_snippet (j : String) :
    (jiraDigits j).data = j.data.filter Char.isDigit
    ∧ sqlQuery "ERP-1234"
        = "select * from ps_s1_scripts_tbl where s1_script_name like \x27%1234J%\x27;"
    ∧ ((∀ c ∈ j.data, c.isDigit = false) →
        sqlQuery j
          = "select * from ps_s1_scripts_tbl where s1_script_name like \x27%XXXXJ%\x27;") := by
  refine ⟨?_, by decide, ?_⟩
  · simp [jiraDigits, replaceNonDigits_eq_filter]
  · intro hnd
    have hz : jiraDigits j = "" := by
      simp only [jiraDigits, replaceNonDigits_eq_filter]
      have : j.data.filter Char.isDigit = [] := by
        apply List.filter_eq_nil_iff.mpr
        intro c hc
        simp [hnd c hc]
      simp [this]
    simp [sqlQuery, hz, digitsOrXXXX]

/-- C8 witness: the template instances at "ERP-1234" and a digit-free
JIRA number. -/
theorem C8_sql_snippet_witness :
    (∀ c ∈ "ERP-".data, c.isDigit = false)
    ∧ sqlQuery "ERP-"
        = "select * from ps_s1_scripts_tbl where s1_script_name like \x27%XXXXJ%\x27;" :=
  ⟨by decide, (C8_sql_snippet "ERP-").2.2 (by decide)⟩

/-- C9: the inbound overwrite path is idempotent — when the surface buffer
already equals the incoming content, it performs no write. -/
theorem C9_inbound_idempotent (C : String) :
    inboundOverwrite C C = (C, false) := by
  simp [inboundOverwrite]

/-- C10: when the JIRA number or the JIRA name is empty, both render
triggers refuse with the fill-in alert before any backend call: no artifact
is produced, and the document and the busy flag are returned unchanged. -/
theorem C10_render_gating (d : AppData) (g : Bool)
    (h : d.jiraNumber = "" ∨ d.jiraName = "") :
    generatePDF d g = (PdfOutcome.refused fillAlert, d, g)
    ∧ handlePrint d = (PrintOutcome.refused fillAlert, d) := by
  constructor
  · simp only [generatePDF]
    rw [if_pos h]
  · simp only [handlePrint]
    rw [if_pos h]

/-- C10 witness: the gate refuses on a concrete document with an empty JIRA
number. -/
theorem C10_render_gating_witness :
    (emptyNumDoc.jiraNumber = "" ∨ emptyNumDoc.jiraName = "")
    ∧ (generatePDF emptyNumDoc false = (PdfOutcome.refused fillAlert, emptyNumDoc, false)
      ∧ handlePrint emptyNumDoc = (PrintOutcome.refused fillAlert, emptyNumDoc)) :=
  ⟨Or.inl rfl, C10_render_gating emptyNumDoc false (Or.inl rfl)⟩

end Cahier
